import Mathlib

set_option maxRecDepth 8192
set_option maxHeartbeats 1600000

namespace Vulcan

/-! Shallow embedding of the vulcan DHCP implementation (crates/lib-dhcp).
    Bytes are modelled as natural numbers below 256 and buffers as lists of
    bytes; the binbuf ReadBuffer is the not-yet-consumed suffix, the
    WriteBuffer the list of bytes emitted so far (writers below return the
    bytes they append). All multi-byte integers are big-endian, as in the
    source. -/

/-- Wire bytes: contents of a binbuf ReadBuffer or WriteBuffer. -/
abbrev Bytes := List Nat

/-- Unified error type flattening the source error enums (BufferError,
    OptionTagError, OptionDataError, OpCodeError, HardwareTypeError,
    ParameterRequestListError, OptionHeaderError, OptionError, HeaderError,
    MessageError). The constructor `panicked` models a Rust panic (a todo!()
    arm or a failed unwrap), which aborts execution without a recoverable
    error value. -/
inductive CodecError where
  | bufTooShort
  | invalidData
  | maxLengthOverflow
  | invalidJumpIndex
  | invalidTag (v : Nat)
  | invalidDhcpMessageSize
  | invalidOptionData
  | invalidParameterCount
  | invalidOpCode (v : Nat)
  | invalidHardwareType (v : Nat)
  | duplicateOption
  | panicked
deriving DecidableEq, Repr

deriving instance DecidableEq for Except

/-- ReadBuffer.pop: one byte off the front, BufTooShort when empty. -/
def readU8 : Bytes → Except CodecError (Nat × Bytes)
  | [] => .error .bufTooShort
  | b :: rest => .ok (b, rest)

/-- Big-endian u16 read (two pops, combined). -/
def readU16 (buf : Bytes) : Except CodecError (Nat × Bytes) := do
  let (hi, buf) ← readU8 buf
  let (lo, buf) ← readU8 buf
  return (hi * 256 + lo, buf)

/-- Big-endian u32 read (four pops, combined). -/
def readU32 (buf : Bytes) : Except CodecError (Nat × Bytes) := do
  let (b0, buf) ← readU8 buf
  let (b1, buf) ← readU8 buf
  let (b2, buf) ← readU8 buf
  let (b3, buf) ← readU8 buf
  return (((b0 * 256 + b1) * 256 + b2) * 256 + b3, buf)

/-- ReadBuffer.read_vec: the next n bytes, BufTooShort if fewer remain. -/
def readVec (n : Nat) (buf : Bytes) : Except CodecError (Bytes × Bytes) :=
  if n ≤ buf.length then .ok (buf.take n, buf.drop n) else .error .bufTooShort

/-- Writer for a u8 value (WriteBuffer.push). -/
def writeU8 (v : Nat) : Bytes := [v % 256]

/-- Writer for a u16 value, big-endian byte order. -/
def writeU16 (v : Nat) : Bytes := [v / 256 % 256, v % 256]

/-- Writer for a u32 value, big-endian byte order. -/
def writeU32 (v : Nat) : Bytes :=
  [v / 16777216 % 256, v / 65536 % 256, v / 256 % 256, v % 256]

/-! Constants from crates/lib-dhcp/src/constants.rs. -/

def MINIMUM_LEGAL_MAX_MESSAGE_SIZE : Nat := 576

def MIN_MSG_SIZE : Nat := 300

def DHCP_MAGIC_COOKIE_ARR : Bytes := [99, 130, 83, 99]

def MINIMAL_RETRANS_DURATION_SECS : Nat := 60

def HARDWARE_ADDR_LEN_ETHERNET : Nat := 6

def ONE_HOUR_SECS : Nat := 3600

/-! Fixed-header field types (types/opcode.rs, types/htype.rs). -/

/-- Packet op code: BOOTREQUEST or BOOTREPLY. -/
inductive OpCode where
  | bootRequest
  | bootReply
deriving DecidableEq, Repr

/-- OpCode TryFrom of a byte: 1 or 2, otherwise InvalidCode. -/
def OpCode.tryFrom (v : Nat) : Except CodecError OpCode :=
  match v with
  | 1 => .ok .bootRequest
  | 2 => .ok .bootReply
  | _ => .error (.invalidOpCode v)

/-- Numeric code of an OpCode. -/
def OpCode.toU8 : OpCode → Nat
  | .bootRequest => 1
  | .bootReply => 2

/-- OpCode read: pop one byte, convert. -/
def OpCode.read (buf : Bytes) : Except CodecError (OpCode × Bytes) := do
  let (b, buf) ← readU8 buf
  let c ← OpCode.tryFrom b
  return (c, buf)

/-- OpCode write: pushes the numeric code. -/
def OpCode.write (c : OpCode) : Bytes := [c.toU8]

/-- Hardware address type; only Ethernet (1) is supported. -/
inductive HardwareType where
  | ethernet
deriving DecidableEq, Repr

/-- HardwareType TryFrom of a byte: only 1 is accepted. -/
def HardwareType.tryFrom (v : Nat) : Except CodecError HardwareType :=
  match v with
  | 1 => .ok .ethernet
  | _ => .error (.invalidHardwareType v)

/-- HardwareType read: pop one byte, convert. -/
def HardwareType.read (buf : Bytes) : Except CodecError (HardwareType × Bytes) := do
  let (b, buf) ← readU8 buf
  let t ← HardwareType.tryFrom b
  return (t, buf)

/-- HardwareType write: in the source the push is commented out and the
    function returns a byte count of 1 while emitting nothing, so the writer
    appends no bytes. -/
def HardwareType.write (_ : HardwareType) : Bytes := []

/-! DHCP message type option payload (types/options/message_type.rs). -/

/-- The seven DHCP message kinds carried by option 53. -/
inductive DhcpMessageType where
  | discover
  | offer
  | request
  | decline
  | ack
  | nak
  | release
deriving DecidableEq, Repr

/-- DhcpMessageType read: a byte in 1..=7, otherwise BufferError InvalidData. -/
def DhcpMessageType.read (buf : Bytes) : Except CodecError (DhcpMessageType × Bytes) := do
  let (ty, buf) ← readU8 buf
  match ty with
  | 1 => return (.discover, buf)
  | 2 => return (.offer, buf)
  | 3 => return (.request, buf)
  | 4 => return (.decline, buf)
  | 5 => return (.ack, buf)
  | 6 => return (.nak, buf)
  | 7 => return (.release, buf)
  | _ => .error .invalidData

/-- DhcpMessageType write: pushes the numeric kind. -/
def DhcpMessageType.write : DhcpMessageType → Bytes
  | .discover => [1]
  | .offer => [2]
  | .request => [3]
  | .decline => [4]
  | .ack => [5]
  | .nak => [6]
  | .release => [7]

/-! Option tags (types/option/tag.rs). -/

/-- The option tag enumeration of the source, mirroring RFC 1533 plus the
    captive-portal tag and a carrier for unassigned or removed codes. -/
inductive OptionTag where
  | pad
  | end_
  | subnetMask
  | timeOffset
  | router
  | timeServer
  | nameServer
  | domainNameServer
  | logServer
  | cookieServer
  | lprServer
  | impressServer
  | resourceLocationServer
  | hostName
  | bootFileSize
  | meritDumpFile
  | domainName
  | swapServer
  | rootPath
  | extensionsPath
  | ipForwarding
  | nonLocalSourceRouting
  | policyFilter
  | maxDatagramReassemblySize
  | defaultIpTtl
  | pathMtuAgingTimeout
  | pathMtuPlateauTable
  | interfaceMtu
  | allSubnetsLocal
  | broadcastAddr
  | performMaskDiscovery
  | maskSupplier
  | performRouterDiscovery
  | routerSolicitationAddr
  | staticRoute
  | trailerEncapsulation
  | arpCacheTimeout
  | ethernetEncapsulation
  | tcpDefaultTtl
  | tcpKeepaliveInterval
  | tcpKeepaliveGarbage
  | networkInformationServiceDomain
  | networkInformationServers
  | networkTimeProtocolServers
  | vendorSpecificInformation
  | netbiosNameServer
  | netbiosDatagramDistributionServer
  | netbiosNodeType
  | netbiosScope
  | xWindowSystemFontServer
  | xWindowSystemDisplayManager
  | requestedIpAddr
  | ipAddrLeaseTime
  | optionOverload
  | dhcpMessageType
  | serverIdentifier
  | parameterRequestList
  | message
  | maxDhcpMessageSize
  | renewalT1Time
  | rebindingT2Time
  | classIdentifier
  | clientIdentifier
  | dhcpCaptivePortal
  | unassignedOrRemoved (v : Nat)

/-- OptionTag TryFrom of a byte: the explicit arm list of the source. Only
    the byte 108 maps to unassignedOrRemoved; every byte outside the listed
    arms is an InvalidTag error. -/
def OptionTag.tryFrom (value : Nat) : Except CodecError OptionTag :=
  match value with
  | 0 => .ok .pad
  | 1 => .ok .subnetMask
  | 2 => .ok .timeOffset
  | 3 => .ok .router
  | 4 => .ok .timeServer
  | 5 => .ok .nameServer
  | 6 => .ok .domainNameServer
  | 7 => .ok .logServer
  | 8 => .ok .cookieServer
  | 9 => .ok .lprServer
  | 10 => .ok .impressServer
  | 11 => .ok .resourceLocationServer
  | 12 => .ok .hostName
  | 13 => .ok .bootFileSize
  | 14 => .ok .meritDumpFile
  | 15 => .ok .domainName
  | 16 => .ok .swapServer
  | 17 => .ok .rootPath
  | 18 => .ok .extensionsPath
  | 19 => .ok .ipForwarding
  | 20 => .ok .nonLocalSourceRouting
  | 21 => .ok .policyFilter
  | 22 => .ok .maxDatagramReassemblySize
  | 23 => .ok .defaultIpTtl
  | 24 => .ok .pathMtuAgingTimeout
  | 25 => .ok .pathMtuPlateauTable
  | 26 => .ok .interfaceMtu
  | 27 => .ok .allSubnetsLocal
  | 28 => .ok .broadcastAddr
  | 29 => .ok .performMaskDiscovery
  | 30 => .ok .maskSupplier
  | 31 => .ok .performRouterDiscovery
  | 32 => .ok .routerSolicitationAddr
  | 33 => .ok .staticRoute
  | 34 => .ok .trailerEncapsulation
  | 35 => .ok .arpCacheTimeout
  | 36 => .ok .ethernetEncapsulation
  | 37 => .ok .tcpDefaultTtl
  | 38 => .ok .tcpKeepaliveInterval
  | 39 => .ok .tcpKeepaliveGarbage
  | 40 => .ok .networkInformationServiceDomain
  | 41 => .ok .networkInformationServers
  | 42 => .ok .networkTimeProtocolServers
  | 43 => .ok .vendorSpecificInformation
  | 44 => .ok .netbiosNameServer
  | 45 => .ok .netbiosDatagramDistributionServer
  | 46 => .ok .netbiosNodeType
  | 47 => .ok .netbiosScope
  | 48 => .ok .xWindowSystemFontServer
  | 49 => .ok .xWindowSystemDisplayManager
  | 50 => .ok .requestedIpAddr
  | 51 => .ok .ipAddrLeaseTime
  | 52 => .ok .optionOverload
  | 53 => .ok .dhcpMessageType
  | 54 => .ok .serverIdentifier
  | 55 => .ok .parameterRequestList
  | 56 => .ok .message
  | 57 => .ok .maxDhcpMessageSize
  | 58 => .ok .renewalT1Time
  | 59 => .ok .rebindingT2Time
  | 60 => .ok .classIdentifier
  | 61 => .ok .clientIdentifier
  | 114 => .ok .dhcpCaptivePortal
  | 255 => .ok .end_
  | 108 => .ok (.unassignedOrRemoved value)
  | _ => .error (.invalidTag value)

/-- OptionTag read: pop one byte, convert via tryFrom. -/
def OptionTag.read (buf : Bytes) : Except CodecError (OptionTag × Bytes) := do
  let (b, buf) ← readU8 buf
  let t ← OptionTag.tryFrom b
  return (t, buf)

/-- OptionTag write: the source is a stub, the push is commented out and the
    function returns a byte count of 1 while emitting no bytes, so the writer
    appends nothing to the buffer. -/
def OptionTag.write (_ : OptionTag) : Bytes := []

/-- Constructor index of an option tag, used to decide tag equality
    (the derived PartialEq of the source) without a quadratic matcher. -/
def OptionTag.ctorIdx : OptionTag → Nat
  | .pad => 0
  | .end_ => 1
  | .subnetMask => 2
  | .timeOffset => 3
  | .router => 4
  | .timeServer => 5
  | .nameServer => 6
  | .domainNameServer => 7
  | .logServer => 8
  | .cookieServer => 9
  | .lprServer => 10
  | .impressServer => 11
  | .resourceLocationServer => 12
  | .hostName => 13
  | .bootFileSize => 14
  | .meritDumpFile => 15
  | .domainName => 16
  | .swapServer => 17
  | .rootPath => 18
  | .extensionsPath => 19
  | .ipForwarding => 20
  | .nonLocalSourceRouting => 21
  | .policyFilter => 22
  | .maxDatagramReassemblySize => 23
  | .defaultIpTtl => 24
  | .pathMtuAgingTimeout => 25
  | .pathMtuPlateauTable => 26
  | .interfaceMtu => 27
  | .allSubnetsLocal => 28
  | .broadcastAddr => 29
  | .performMaskDiscovery => 30
  | .maskSupplier => 31
  | .performRouterDiscovery => 32
  | .routerSolicitationAddr => 33
  | .staticRoute => 34
  | .trailerEncapsulation => 35
  | .arpCacheTimeout => 36
  | .ethernetEncapsulation => 37
  | .tcpDefaultTtl => 38
  | .tcpKeepaliveInterval => 39
  | .tcpKeepaliveGarbage => 40
  | .networkInformationServiceDomain => 41
  | .networkInformationServers => 42
  | .networkTimeProtocolServers => 43
  | .vendorSpecificInformation => 44
  | .netbiosNameServer => 45
  | .netbiosDatagramDistributionServer => 46
  | .netbiosNodeType => 47
  | .netbiosScope => 48
  | .xWindowSystemFontServer => 49
  | .xWindowSystemDisplayManager => 50
  | .requestedIpAddr => 51
  | .ipAddrLeaseTime => 52
  | .optionOverload => 53
  | .dhcpMessageType => 54
  | .serverIdentifier => 55
  | .parameterRequestList => 56
  | .message => 57
  | .maxDhcpMessageSize => 58
  | .renewalT1Time => 59
  | .rebindingT2Time => 60
  | .classIdentifier => 61
  | .clientIdentifier => 62
  | .dhcpCaptivePortal => 63
  | .unassignedOrRemoved _ => 64

/-- The payload of the one payload-carrying tag constructor, zero elsewhere. -/
def OptionTag.payloadVal : OptionTag → Nat
  | .unassignedOrRemoved v => v
  | _ => 0

/-- Tag equality, the derived PartialEq of the source: same constructor and,
    for UnassignedOrRemoved, the same carried byte. -/
def OptionTag.beq (a b : OptionTag) : Bool :=
  a.ctorIdx == b.ctorIdx && a.payloadVal == b.payloadVal

/-- True for the two length-less tags Pad and End, the comparison in the
    option-header reader. -/
def OptionTag.isLengthless : OptionTag → Bool
  | .pad => true
  | .end_ => true
  | _ => false

/-! Option header (types/option/header.rs). -/

/-- An option TLV header: tag and declared payload length. -/
structure OptionHeader where
  tag : OptionTag
  len : Nat

/-- OptionHeader read: read the tag; Pad and End are length-less with len
    fixed to 1, every other tag is followed by a length byte. -/
def OptionHeader.read (buf : Bytes) : Except CodecError (OptionHeader × Bytes) := do
  let (tag, buf) ← OptionTag.read buf
  if tag.isLengthless then
    return (⟨tag, 1⟩, buf)
  else
    let (len, buf) ← readU8 buf
    return (⟨tag, len⟩, buf)

/-- OptionHeader write: the tag writer (a stub emitting nothing) followed by
    the length byte, which is written unconditionally. -/
def OptionHeader.write (h : OptionHeader) : Bytes :=
  OptionTag.write h.tag ++ writeU8 h.len

/-! IPv4 addresses, read and written as four octets in order. -/

/-- An IPv4 address as its four octets. -/
structure Ipv4Addr where
  o1 : Nat
  o2 : Nat
  o3 : Nat
  o4 : Nat
deriving DecidableEq, Repr

/-- Ipv4Addr read: four bytes in network order. -/
def Ipv4Addr.read (buf : Bytes) : Except CodecError (Ipv4Addr × Bytes) := do
  let (b0, buf) ← readU8 buf
  let (b1, buf) ← readU8 buf
  let (b2, buf) ← readU8 buf
  let (b3, buf) ← readU8 buf
  return (⟨b0, b1, b2, b3⟩, buf)

/-- Ipv4Addr write: the four octets. -/
def Ipv4Addr.write (ip : Ipv4Addr) : Bytes :=
  [ip.o1 % 256, ip.o2 % 256, ip.o3 % 256, ip.o4 % 256]

/-- The IPv4 broadcast address 255.255.255.255. -/
def Ipv4Addr.broadcast : Ipv4Addr := ⟨255, 255, 255, 255⟩

/-- True when the byte is a UTF-8 continuation byte (0x80..=0xBF). -/
def utf8Cont (b : Nat) : Bool := 128 ≤ b && b ≤ 191

/-- Validity of a byte list as UTF-8, the check behind String from_utf8 in
    the source; an invalid sequence makes the source unwrap panic. -/
def utf8Valid : Bytes → Bool
  | [] => true
  | b :: rest =>
    if b < 128 then utf8Valid rest
    else if 194 ≤ b && b ≤ 223 then
      match rest with
      | c1 :: r => utf8Cont c1 && utf8Valid r
      | [] => false
    else if b = 224 then
      match rest with
      | c1 :: c2 :: r => (160 ≤ c1 && c1 ≤ 191) && utf8Cont c2 && utf8Valid r
      | _ => false
    else if (225 ≤ b && b ≤ 236) || b = 238 || b = 239 then
      match rest with
      | c1 :: c2 :: r => utf8Cont c1 && utf8Cont c2 && utf8Valid r
      | _ => false
    else if b = 237 then
      match rest with
      | c1 :: c2 :: r => (128 ≤ c1 && c1 ≤ 159) && utf8Cont c2 && utf8Valid r
      | _ => false
    else if b = 240 then
      match rest with
      | c1 :: c2 :: c3 :: r =>
        (144 ≤ c1 && c1 ≤ 191) && utf8Cont c2 && utf8Cont c3 && utf8Valid r
      | _ => false
    else if 241 ≤ b && b ≤ 243 then
      match rest with
      | c1 :: c2 :: c3 :: r =>
        utf8Cont c1 && utf8Cont c2 && utf8Cont c3 && utf8Valid r
      | _ => false
    else if b = 244 then
      match rest with
      | c1 :: c2 :: c3 :: r =>
        (128 ≤ c1 && c1 ≤ 143) && utf8Cont c2 && utf8Cont c3 && utf8Valid r
      | _ => false
    else false
termination_by l => l.length
decreasing_by all_goals (simp [List.length]; try omega)

/-! Parameter request list (types/options/param_req_list.rs). -/

/-- ParameterRequestList read: len must be nonzero, then len tag bytes. -/
def ParameterRequestList.readTags (count : Nat) (buf : Bytes) :
    Except CodecError (List OptionTag × Bytes) :=
  match count with
  | 0 => .ok ([], buf)
  | n + 1 => do
    let (tag, buf) ← OptionTag.read buf
    let (tags, buf) ← ParameterRequestList.readTags n buf
    return (tag :: tags, buf)

/-- ParameterRequestList read entry point: InvalidParameterCount on len 0. -/
def ParameterRequestList.read (len : Nat) (buf : Bytes) :
    Except CodecError (List OptionTag × Bytes) :=
  if len = 0 then .error .invalidParameterCount
  else ParameterRequestList.readTags len buf

/-- ParameterRequestList write: writes each tag via the stubbed tag writer,
    so it appends no bytes while the source reports the list length. -/
def ParameterRequestList.write (tags : List OptionTag) : Bytes :=
  tags.foldl (fun acc t => acc ++ OptionTag.write t) []

/-! Client identifier option payload (types/options/client_identifier.rs). -/

/-- Client identifier: a type byte and an identifier byte string. -/
structure ClientIdentifier where
  identifier : Bytes
  ty : Nat
deriving DecidableEq, Repr

/-- ClientIdentifier From a byte vector: type byte hardcoded to 1. -/
def ClientIdentifier.fromBytes (value : Bytes) : ClientIdentifier :=
  ⟨value, 1⟩

/-- ClientIdentifier read: len must be at least 2, then a type byte and
    len - 1 identifier bytes. -/
def ClientIdentifier.read (len : Nat) (buf : Bytes) :
    Except CodecError (ClientIdentifier × Bytes) := do
  if len < 2 then .error .invalidData
  else
    let (ty, buf) ← readU8 buf
    let (ident, buf) ← readVec (len - 1) buf
    return (⟨ident, ty⟩, buf)

/-- ClientIdentifier write: empty identifier is InvalidData, otherwise the
    type byte followed by the identifier bytes. -/
def ClientIdentifier.write (c : ClientIdentifier) : Except CodecError Bytes :=
  if c.identifier.length = 0 then .error .invalidData
  else .ok (writeU8 c.ty ++ c.identifier)

/-! Class identifier option payload (types/options/class_identifier.rs).
    The source stores a String built by an unwrapped from_utf8; the
    embedding keeps the underlying bytes and models the unwrap. -/

/-- ClassIdentifier read: len must be nonzero, then len bytes which must be
    valid UTF-8 (the source unwraps, so invalid input panics). -/
def ClassIdentifier.read (len : Nat) (buf : Bytes) :
    Except CodecError (Bytes × Bytes) := do
  if len = 0 then .error .invalidData
  else
    let (ident, buf) ← readVec len buf
    if utf8Valid ident then return (ident, buf) else .error .panicked

/-- ClassIdentifier write: the identifier bytes. -/
def ClassIdentifier.write (c : Bytes) : Bytes := c

/-! Option data (types/option/data.rs). -/

/-- The option payload enumeration of the source. Variants whose payloads
    the source never materialises stay payload-less here exactly as there;
    host and class identifiers keep the raw bytes behind the source's
    Strings. -/
inductive OptionData where
  | pad
  | end_
  | subnetMask (ip : Ipv4Addr)
  | timeOffset (v : Nat)
  | router (ips : List Ipv4Addr)
  | timeServer (ips : List Ipv4Addr)
  | nameServer (ips : List Ipv4Addr)
  | domainNameServer (ips : List Ipv4Addr)
  | logServer (ips : List Ipv4Addr)
  | cookieServer (ips : List Ipv4Addr)
  | lprServer (ips : List Ipv4Addr)
  | impressServer (ips : List Ipv4Addr)
  | resourceLocationServer (ips : List Ipv4Addr)
  | hostName (name : Bytes)
  | bootFileSize (v : Nat)
  | meritDumpFile
  | domainName
  | swapServer
  | rootPath
  | extensionsPath
  | ipForwarding
  | nonLocalSourceRouting
  | policyFilter
  | maxDatagramReassemblySize
  | defaultIpTtl
  | pathMtuAgingTimeout
  | pathMtuPlateauTable
  | interfaceMtu
  | allSubnetsLocal
  | broadcastAddr
  | performMaskDiscovery
  | maskSupplier
  | performRouterDiscovery
  | routerSolicitationAddr
  | staticRoute
  | trailerEncapsulation
  | arpCacheTimeout
  | ethernetEncapsulation
  | tcpDefaultTtl
  | tcpKeepaliveInterval
  | tcpKeepaliveGarbage
  | networkInformationServiceDomain
  | networkInformationServers
  | networkTimeProtocolServers
  | vendorSpecificInformation
  | netbiosNameServer
  | netbiosDatagramDistributionServer
  | netbiosNodeType
  | netbiosScope
  | xWindowSystemFontServer
  | xWindowSystemDisplayManager
  | requestedIpAddr (ip : Ipv4Addr)
  | ipAddrLeaseTime (v : Nat)
  | optionOverload
  | dhcpMessageType (ty : DhcpMessageType)
  | serverIdentifier (ip : Ipv4Addr)
  | parameterRequestList (tags : List OptionTag)
  | message
  | maxDhcpMessageSize (v : Nat)
  | renewalT1Time (v : Nat)
  | rebindingT2Time (v : Nat)
  | classIdentifier (ident : Bytes)
  | clientIdentifier (c : ClientIdentifier)

/-- Helper read_ip_addrs_set of the source: the length must be a positive
    multiple of four, then len / 4 addresses are read. -/
def readIpAddrsSet (len : Nat) (buf : Bytes) :
    Except CodecError (List Ipv4Addr × Bytes) :=
  if len < 4 ∨ len % 4 ≠ 0 then .error .invalidOptionData
  else go (len / 4) buf
where
  go : Nat → Bytes → Except CodecError (List Ipv4Addr × Bytes)
    | 0, buf => .ok ([], buf)
    | n + 1, buf => do
      let (ip, buf) ← Ipv4Addr.read buf
      let (ips, buf) ← go n buf
      return (ip :: ips, buf)

/-- OptionData read, dispatching on the already-read header tag. Arms the
    source leaves as todo!() panic; the unwrap on host names panics on
    invalid UTF-8. The max-DHCP-message-size arm enforces the 576 minimum. -/
def OptionData.read (header : OptionHeader) (buf : Bytes) :
    Except CodecError (OptionData × Bytes) :=
  match header.tag with
  | .pad => .ok (.pad, buf)
  | .end_ => .ok (.end_, buf)
  | .subnetMask => do
    let (ip, buf) ← Ipv4Addr.read buf
    return (.subnetMask ip, buf)
  | .timeOffset => do
    let (v, buf) ← readU32 buf
    return (.timeOffset v, buf)
  | .router => do
    let (ips, buf) ← readIpAddrsSet header.len buf
    return (.router ips, buf)
  | .timeServer => do
    let (ips, buf) ← readIpAddrsSet header.len buf
    return (.timeServer ips, buf)
  | .nameServer => do
    let (ips, buf) ← readIpAddrsSet header.len buf
    return (.nameServer ips, buf)
  | .domainNameServer => do
    let (ips, buf) ← readIpAddrsSet header.len buf
    return (.domainNameServer ips, buf)
  | .logServer => do
    let (ips, buf) ← readIpAddrsSet header.len buf
    return (.logServer ips, buf)
  | .cookieServer => do
    let (ips, buf) ← readIpAddrsSet header.len buf
    return (.cookieServer ips, buf)
  | .lprServer => do
    let (ips, buf) ← readIpAddrsSet header.len buf
    return (.lprServer ips, buf)
  | .impressServer => do
    let (ips, buf) ← readIpAddrsSet header.len buf
    return (.impressServer ips, buf)
  | .resourceLocationServer => .error .panicked
  | .hostName => do
    let (b, buf) ← readVec header.len buf
    if utf8Valid b then return (.hostName b, buf) else .error .panicked
  | .bootFileSize => .error .panicked
  | .meritDumpFile => .error .panicked
  | .domainName => .error .panicked
  | .swapServer => .error .panicked
  | .rootPath => .error .panicked
  | .extensionsPath => .error .panicked
  | .ipForwarding => .error .panicked
  | .nonLocalSourceRouting => .error .panicked
  | .policyFilter => .error .panicked
  | .maxDatagramReassemblySize => .error .panicked
  | .defaultIpTtl => .error .panicked
  | .pathMtuAgingTimeout => .error .panicked
  | .pathMtuPlateauTable => .error .panicked
  | .interfaceMtu => .error .panicked
  | .allSubnetsLocal => .error .panicked
  | .broadcastAddr => .error .panicked
  | .performMaskDiscovery => .error .panicked
  | .maskSupplier => .error .panicked
  | .performRouterDiscovery => .error .panicked
  | .routerSolicitationAddr => .error .panicked
  | .staticRoute => .error .panicked
  | .trailerEncapsulation => .error .panicked
  | .arpCacheTimeout => .error .panicked
  | .ethernetEncapsulation => .error .panicked
  | .tcpDefaultTtl => .error .panicked
  | .tcpKeepaliveInterval => .error .panicked
  | .tcpKeepaliveGarbage => .error .panicked
  | .networkInformationServiceDomain => .error .panicked
  | .networkInformationServers => .error .panicked
  | .networkTimeProtocolServers => .error .panicked
  | .vendorSpecificInformation => .error .panicked
  | .netbiosNameServer => .error .panicked
  | .netbiosDatagramDistributionServer => .error .panicked
  | .netbiosNodeType => .error .panicked
  | .netbiosScope => .error .panicked
  | .xWindowSystemFontServer => .error .panicked
  | .xWindowSystemDisplayManager => .error .panicked
  | .requestedIpAddr => do
    let (ip, buf) ← Ipv4Addr.read buf
    return (.requestedIpAddr ip, buf)
  | .ipAddrLeaseTime => do
    let (v, buf) ← readU32 buf
    return (.ipAddrLeaseTime v, buf)
  | .optionOverload => .error .panicked
  | .dhcpMessageType => do
    let (ty, buf) ← DhcpMessageType.read buf
    return (.dhcpMessageType ty, buf)
  | .serverIdentifier => do
    let (ip, buf) ← Ipv4Addr.read buf
    return (.serverIdentifier ip, buf)
  | .parameterRequestList => do
    let (tags, buf) ← ParameterRequestList.read header.len buf
    return (.parameterRequestList tags, buf)
  | .message => .error .panicked
  | .maxDhcpMessageSize => do
    let (size, buf) ← readU16 buf
    if size < MINIMUM_LEGAL_MAX_MESSAGE_SIZE then
      .error .invalidDhcpMessageSize
    else
      return (.maxDhcpMessageSize size, buf)
  | .renewalT1Time => do
    let (v, buf) ← readU32 buf
    return (.renewalT1Time v, buf)
  | .rebindingT2Time => do
    let (v, buf) ← readU32 buf
    return (.rebindingT2Time v, buf)
  | .classIdentifier => do
    let (ident, buf) ← ClassIdentifier.read header.len buf
    return (.classIdentifier ident, buf)
  | .clientIdentifier => do
    let (c, buf) ← ClientIdentifier.read header.len buf
    return (.clientIdentifier c, buf)
  | .dhcpCaptivePortal => .error .panicked
  | .unassignedOrRemoved _ => .error .panicked

/-- OptionData write. Pad and End emit their single fixed byte; implemented
    payloads emit their encodings; todo!() arms panic. -/
def OptionData.write : OptionData → Except CodecError Bytes
  | .pad => .ok (writeU8 0)
  | .end_ => .ok (writeU8 255)
  | .subnetMask ip => .ok ip.write
  | .timeOffset v => .ok (writeU32 v)
  | .router ips => .ok (ips.foldl (fun acc ip => acc ++ ip.write) [])
  | .timeServer ips => .ok (ips.foldl (fun acc ip => acc ++ ip.write) [])
  | .nameServer ips => .ok (ips.foldl (fun acc ip => acc ++ ip.write) [])
  | .domainNameServer ips => .ok (ips.foldl (fun acc ip => acc ++ ip.write) [])
  | .logServer ips => .ok (ips.foldl (fun acc ip => acc ++ ip.write) [])
  | .cookieServer ips => .ok (ips.foldl (fun acc ip => acc ++ ip.write) [])
  | .lprServer ips => .ok (ips.foldl (fun acc ip => acc ++ ip.write) [])
  | .impressServer ips => .ok (ips.foldl (fun acc ip => acc ++ ip.write) [])
  | .resourceLocationServer ips => .ok (ips.foldl (fun acc ip => acc ++ ip.write) [])
  | .hostName name => .ok name
  | .bootFileSize v => .ok (writeU16 v)
  | .meritDumpFile => .error .panicked
  | .domainName => .error .panicked
  | .swapServer => .error .panicked
  | .rootPath => .error .panicked
  | .extensionsPath => .error .panicked
  | .ipForwarding => .error .panicked
  | .nonLocalSourceRouting => .error .panicked
  | .policyFilter => .error .panicked
  | .maxDatagramReassemblySize => .error .panicked
  | .defaultIpTtl => .error .panicked
  | .pathMtuAgingTimeout => .error .panicked
  | .pathMtuPlateauTable => .error .panicked
  | .interfaceMtu => .error .panicked
  | .allSubnetsLocal => .error .panicked
  | .broadcastAddr => .error .panicked
  | .performMaskDiscovery => .error .panicked
  | .maskSupplier => .error .panicked
  | .performRouterDiscovery => .error .panicked
  | .routerSolicitationAddr => .error .panicked
  | .staticRoute => .error .panicked
  | .trailerEncapsulation => .error .panicked
  | .arpCacheTimeout => .error .panicked
  | .ethernetEncapsulation => .error .panicked
  | .tcpDefaultTtl => .error .panicked
  | .tcpKeepaliveInterval => .error .panicked
  | .tcpKeepaliveGarbage => .error .panicked
  | .networkInformationServiceDomain => .error .panicked
  | .networkInformationServers => .error .panicked
  | .networkTimeProtocolServers => .error .panicked
  | .vendorSpecificInformation => .error .panicked
  | .netbiosNameServer => .error .panicked
  | .netbiosDatagramDistributionServer => .error .panicked
  | .netbiosNodeType => .error .panicked
  | .netbiosScope => .error .panicked
  | .xWindowSystemFontServer => .error .panicked
  | .xWindowSystemDisplayManager => .error .panicked
  | .requestedIpAddr ip => .ok ip.write
  | .ipAddrLeaseTime v => .ok (writeU32 v)
  | .optionOverload => .error .panicked
  | .dhcpMessageType ty => .ok ty.write
  | .serverIdentifier ip => .ok ip.write
  | .parameterRequestList tags => .ok (ParameterRequestList.write tags)
  | .message => .error .panicked
  | .maxDhcpMessageSize v => .ok (writeU16 v)
  | .renewalT1Time v => .ok (writeU32 v)
  | .rebindingT2Time v => .ok (writeU32 v)
  | .classIdentifier ident => .ok (ClassIdentifier.write ident)
  | .clientIdentifier c => ClientIdentifier.write c

/-- OptionData size: the payload size in octets used to compute the len
    field; arms the source leaves as todo!() have no value. -/
def OptionData.size : OptionData → Option Nat
  | .pad => some 1
  | .end_ => some 1
  | .subnetMask _ => some 4
  | .timeOffset _ => some 4
  | .router ips => some (ips.length * 4 % 256)
  | .timeServer ips => some (ips.length * 4 % 256)
  | .nameServer ips => some (ips.length * 4 % 256)
  | .domainNameServer ips => some (ips.length * 4 % 256)
  | .logServer ips => some (ips.length * 4 % 256)
  | .cookieServer ips => some (ips.length * 4 % 256)
  | .lprServer ips => some (ips.length * 4 % 256)
  | .impressServer ips => some (ips.length * 4 % 256)
  | .resourceLocationServer ips => some (ips.length * 4 % 256)
  | .hostName h => some (h.length % 256)
  | .bootFileSize _ => some 2
  | .meritDumpFile => none
  | .domainName => none
  | .swapServer => none
  | .rootPath => none
  | .extensionsPath => none
  | .ipForwarding => some 1
  | .nonLocalSourceRouting => some 1
  | .policyFilter => none
  | .maxDatagramReassemblySize => some 2
  | .defaultIpTtl => some 1
  | .pathMtuAgingTimeout => some 4
  | .pathMtuPlateauTable => none
  | .interfaceMtu => some 2
  | .allSubnetsLocal => some 1
  | .broadcastAddr => some 4
  | .performMaskDiscovery => some 1
  | .maskSupplier => some 1
  | .performRouterDiscovery => some 1
  | .routerSolicitationAddr => some 4
  | .staticRoute => none
  | .trailerEncapsulation => some 1
  | .arpCacheTimeout => some 4
  | .ethernetEncapsulation => some 1
  | .tcpDefaultTtl => some 1
  | .tcpKeepaliveInterval => some 4
  | .tcpKeepaliveGarbage => some 1
  | .networkInformationServiceDomain => none
  | .networkInformationServers => none
  | .networkTimeProtocolServers => none
  | .vendorSpecificInformation => none
  | .netbiosNameServer => none
  | .netbiosDatagramDistributionServer => none
  | .netbiosNodeType => some 1
  | .netbiosScope => none
  | .xWindowSystemFontServer => none
  | .xWindowSystemDisplayManager => none
  | .requestedIpAddr _ => some 4
  | .ipAddrLeaseTime _ => some 4
  | .optionOverload => some 1
  | .dhcpMessageType _ => some 1
  | .serverIdentifier _ => some 4
  | .parameterRequestList l => some (l.length % 256)
  | .message => none
  | .maxDhcpMessageSize _ => some 2
  | .renewalT1Time _ => some 4
  | .rebindingT2Time _ => some 4
  | .classIdentifier _ => none
  | .clientIdentifier _ => none

/-! Whole options (types/option/mod.rs). -/

/-- An option TLV: its header and payload. -/
structure DhcpOption where
  header : OptionHeader
  data : OptionData

/-- DhcpOption new: the header len is computed from the data size (none when
    the size of that payload is itself unimplemented in the source). -/
def DhcpOption.new (tag : OptionTag) (data : OptionData) : Option DhcpOption :=
  match data.size with
  | some len => some ⟨⟨tag, len⟩, data⟩
  | none => none

/-- DhcpOption read: header then payload. -/
def DhcpOption.read (buf : Bytes) : Except CodecError (DhcpOption × Bytes) := do
  let (header, buf) ← OptionHeader.read buf
  let (data, buf) ← OptionData.read header buf
  return (⟨header, data⟩, buf)

/-- DhcpOption write: header bytes then payload bytes. -/
def DhcpOption.write (o : DhcpOption) : Except CodecError Bytes := do
  let dataBytes ← o.data.write
  return o.header.write ++ dataBytes

/-! Hardware addresses (types/addr.rs). -/

/-- Parse errors of the hardware-address string constructor. -/
inductive ParseHardwareAddrError where
  | invalidByte
  | invalidSeparator
  | invalidLength (n : Nat)
deriving DecidableEq, Repr

/-- A client hardware address: the address bytes and the zero padding that
    fills the 16-octet chaddr field. Field order follows the source. -/
structure HardwareAddr where
  padding : Bytes
  addr : Bytes
deriving DecidableEq, Repr

/-- HardwareAddr Default: empty address, 16 bytes of padding. -/
def HardwareAddr.default : HardwareAddr := ⟨List.replicate 16 0, []⟩

/-- HardwareAddr len: the length of the address bytes. -/
def HardwareAddr.len (h : HardwareAddr) : Nat := h.addr.length

/-- HardwareAddr write: InvalidData unless address plus padding is exactly
    16 bytes, otherwise address bytes then padding bytes. -/
def HardwareAddr.write (h : HardwareAddr) : Except CodecError Bytes :=
  if h.addr.length + h.padding.length ≠ 16 then .error .invalidData
  else .ok (h.addr ++ h.padding)

/-- HardwareAddr read: hlen above 16 is InvalidData; otherwise 16 bytes are
    read and split at hlen into address and padding. -/
def HardwareAddr.read (hlen : Nat) (buf : Bytes) :
    Except CodecError (HardwareAddr × Bytes) :=
  if hlen > 16 then .error .invalidData
  else do
    let (fullAddr, buf) ← readVec 16 buf
    return (⟨fullAddr.drop hlen, fullAddr.take hlen⟩, buf)

/-- Value of one hexadecimal digit character. -/
def hexDigitVal (c : Char) : Option Nat :=
  if '0' ≤ c ∧ c ≤ '9' then some (c.toNat - 48)
  else if 'a' ≤ c ∧ c ≤ 'f' then some (c.toNat - 87)
  else if 'A' ≤ c ∧ c ≤ 'F' then some (c.toNat - 55)
  else none

/-- Rust u8 from_str_radix with radix 16: an optional leading plus sign,
    then at least one hex digit, failing on any other character and on
    overflow past 255. -/
def parseHexU8 (s : List Char) : Option Nat :=
  let digits := match s with
    | '+' :: rest => rest
    | _ => s
  if digits.isEmpty then none
  else
    digits.foldl
      (fun acc c => do
        let a ← acc
        let d ← hexDigitVal c
        let v := a * 16 + d
        if v ≤ 255 then some v else none)
      (some 0)

/-- Whitespace trim of a character list, the str trim of the source. -/
def trimChars (s : List Char) : List Char :=
  ((s.dropWhile Char.isWhitespace).reverse.dropWhile Char.isWhitespace).reverse

/-- Split of a character list at colons, keeping empty segments, the
    str split of the source. -/
def splitOnColon : List Char → List (List Char)
  | [] => [[]]
  | c :: rest =>
    if c = ':' then [] :: splitOnColon rest
    else
      match splitOnColon rest with
      | [] => [[c]]
      | seg :: segs => (c :: seg) :: segs

/-- Parse every colon-separated segment as a hex byte; the first failing
    segment aborts with InvalidByte, as the source loop does. -/
def parseHexSegments : List (List Char) → Except ParseHardwareAddrError Bytes
  | [] => .ok []
  | s :: rest =>
    match parseHexU8 s with
    | some v => do
      let vs ← parseHexSegments rest
      return v :: vs
    | none => .error .invalidByte

/-- HardwareAddr TryFrom of a string: requires a colon, trims, splits on
    colons, rejects more than 16 segments, parses each segment as a hex
    byte, and pads the address to 16 octets with zeros. -/
def HardwareAddr.tryFrom (input : List Char) :
    Except ParseHardwareAddrError HardwareAddr :=
  if ¬ input.contains ':' then .error .invalidSeparator
  else if (splitOnColon (trimChars input)).length > 16 then
    .error (.invalidLength (splitOnColon (trimChars input)).length)
  else do
    let addr ← parseHexSegments (splitOnColon (trimChars input))
    return ⟨List.replicate (16 - addr.length) 0, addr⟩

/-! Fixed message header (types/header.rs). -/

/-- The BOOTP fixed header fields in front of the four addresses. -/
structure Header where
  opcode : OpCode
  htype : HardwareType
  hlen : Nat
  hops : Nat
  xid : Nat
  secs : Nat
  flags : Nat
deriving DecidableEq, Repr

/-- Header Default: a BOOTREQUEST Ethernet header with all counters zero. -/
def Header.default : Header :=
  ⟨.bootRequest, .ethernet, HARDWARE_ADDR_LEN_ETHERNET, 0, 0, 0, 0⟩

/-- Header new_with_xid: the default header with the given transaction id. -/
def Header.newWithXid (xid : Nat) : Header :=
  { Header.default with xid := xid }

/-- Header read: opcode, htype, hlen, hops, xid, secs, flags. -/
def Header.read (buf : Bytes) : Except CodecError (Header × Bytes) := do
  let (opcode, buf) ← OpCode.read buf
  let (htype, buf) ← HardwareType.read buf
  let (hlen, buf) ← readU8 buf
  let (hops, buf) ← readU8 buf
  let (xid, buf) ← readU32 buf
  let (secs, buf) ← readU16 buf
  let (flags, buf) ← readU16 buf
  return (⟨opcode, htype, hlen, hops, xid, secs, flags⟩, buf)

/-- Header write: the same field order; note the htype writer is a stub that
    emits nothing. -/
def Header.write (h : Header) : Bytes :=
  OpCode.write h.opcode ++ HardwareType.write h.htype ++ writeU8 h.hlen ++
    writeU8 h.hops ++ writeU32 h.xid ++ writeU16 h.secs ++ writeU16 h.flags

/-! Whole messages (types/message.rs). -/

/-- A complete DHCP message. -/
structure Message where
  header : Header
  ciaddr : Ipv4Addr
  yiaddr : Ipv4Addr
  siaddr : Ipv4Addr
  giaddr : Ipv4Addr
  chaddr : HardwareAddr
  sname : Bytes
  file : Bytes
  options : List DhcpOption

/-- Message Default: default header, zero addresses, default chaddr,
    zeroed sname and file, no options. -/
def Message.default : Message :=
  ⟨Header.default, ⟨0, 0, 0, 0⟩, ⟨0, 0, 0, 0⟩, ⟨0, 0, 0, 0⟩, ⟨0, 0, 0, 0⟩,
    HardwareAddr.default, List.replicate 64 0, List.replicate 128 0, []⟩

/-- Message new_with_xid: the default message with the given xid. -/
def Message.newWithXid (xid : Nat) : Message :=
  { Message.default with header := Header.newWithXid xid }

/-- Option area loop body: read options until the buffer is exhausted. The
    fuel equals the buffer length; every successful option read consumes at
    least the tag byte, so the zero-fuel arm is unreachable. -/
def readOptionsGo : Nat → Bytes → Except CodecError (List DhcpOption)
  | _, [] => .ok []
  | 0, _ :: _ => .error .panicked
  | fuel + 1, b :: rest => do
    let (o, buf) ← DhcpOption.read (b :: rest)
    let os ← readOptionsGo fuel buf
    return o :: os

/-- read_options of the source: an empty option area is BufTooShort, then
    the loop runs until the buffer is empty. -/
def readOptions (buf : Bytes) : Except CodecError (List DhcpOption) :=
  if buf.isEmpty then .error .bufTooShort
  else readOptionsGo buf.length buf

/-- Message read: header, four addresses, chaddr split by hlen, sname and
    file, the magic cookie (peeked then skipped), then the option area. -/
def Message.read (buf : Bytes) : Except CodecError Message := do
  let (header, buf) ← Header.read buf
  let (ciaddr, buf) ← Ipv4Addr.read buf
  let (yiaddr, buf) ← Ipv4Addr.read buf
  let (siaddr, buf) ← Ipv4Addr.read buf
  let (giaddr, buf) ← Ipv4Addr.read buf
  let (chaddr, buf) ← HardwareAddr.read header.hlen buf
  let (sname, buf) ← readVec 64 buf
  let (file, buf) ← readVec 128 buf
  if buf.length < 4 then .error .bufTooShort
  else if buf.take 4 ≠ DHCP_MAGIC_COOKIE_ARR then .error .invalidData
  else do
    let buf := buf.drop 4
    let options ← readOptions buf
    return ⟨header, ciaddr, yiaddr, siaddr, giaddr, chaddr, sname, file, options⟩

/-- Writer fold over the option list. -/
def writeOptionList : List DhcpOption → Except CodecError Bytes
  | [] => .ok []
  | o :: rest => do
    let b ← o.write
    let bs ← writeOptionList rest
    return b ++ bs

/-- Message write: header, addresses, chaddr, sname, file, the magic
    cookie, then the options, in source order, with no padding and no
    appended terminator. -/
def Message.write (m : Message) : Except CodecError Bytes := do
  let chaddrBytes ← m.chaddr.write
  let optBytes ← writeOptionList m.options
  return Header.write m.header ++ m.ciaddr.write ++ m.yiaddr.write ++
    m.siaddr.write ++ m.giaddr.write ++ chaddrBytes ++ m.sname ++ m.file ++
    DHCP_MAGIC_COOKIE_ARR ++ optBytes

/-- Message get_message_type: scan for the first option tagged
    DhcpMessageType; a tag hit whose payload is of a different shape
    returns none immediately, as in the source. -/
def Message.getMessageType (m : Message) : Option DhcpMessageType :=
  go m.options
where
  go : List DhcpOption → Option DhcpMessageType
    | [] => none
    | o :: rest =>
      if o.header.tag.beq .dhcpMessageType then
        match o.data with
        | .dhcpMessageType ty => some ty
        | _ => none
      else go rest

/-- Message add_option: a second option with an already-present tag is a
    DuplicateOptionError, otherwise the option is appended. -/
def Message.addOption (m : Message) (o : DhcpOption) :
    Except CodecError Message :=
  if m.options.any (fun opt => opt.header.tag.beq o.header.tag) then
    .error .duplicateOption
  else
    .ok { m with options := m.options ++ [o] }

/-- Round trip: encode then decode. -/
def Message.roundTrip (m : Message) : Except CodecError Message := do
  let bytes ← m.write
  Message.read bytes

/-! Client lifecycle state machine (client/state/dhcp.rs). -/

/-- The DHCP client lifecycle states. -/
inductive DhcpState where
  | init
  | initReboot
  | selecting
  | selectingSent
  | rebooting
  | requesting
  | requestingSent
  | rebinding
  | rebindingSent
  | bound
  | renewing
  | renewingSent
deriving DecidableEq, Repr

/-- Outcome of transition_to: success with the new current state, a
    DhcpStateError carrying the source and target states (the current state
    is left unchanged), or the panic of the todo!() arm. -/
inductive TransitionResult where
  | ok (next : DhcpState)
  | error (src : DhcpState) (dst : DhcpState)
  | panicked
deriving DecidableEq, Repr

/-- transition_to of the source: the match over current state and requested
    state. The InitReboot arm is todo!() and panics. -/
def transitionTo (current target : DhcpState) : TransitionResult :=
  match current with
  | .init =>
    match target with
    | .selecting => .ok .selecting
    | _ => .error current target
  | .initReboot => .panicked
  | .selecting =>
    match target with
    | .selectingSent => .ok .selectingSent
    | _ => .error current target
  | .selectingSent =>
    match target with
    | .selecting => .ok .selecting
    | .requesting => .ok .requesting
    | _ => .error current target
  | .rebooting =>
    match target with
    | .init => .ok .init
    | .initReboot => .ok .initReboot
    | .bound => .ok .bound
    | _ => .error current target
  | .requesting =>
    match target with
    | .requestingSent => .ok .requestingSent
    | _ => .error current target
  | .requestingSent =>
    match target with
    | .init => .ok .init
    | .requesting => .ok .requesting
    | .bound => .ok .bound
    | _ => .error current target
  | .rebinding =>
    match target with
    | .rebindingSent => .ok .rebindingSent
    | _ => .error current target
  | .rebindingSent =>
    match target with
    | .init => .ok .init
    | .bound => .ok .bound
    | _ => .error current target
  | .bound =>
    match target with
    | .bound => .ok .bound
    | .renewing => .ok .renewing
    | _ => .error current target
  | .renewingSent =>
    match target with
    | .init => .ok .init
    | .renewing => .ok .renewing
    | .rebinding => .ok .rebinding
    | .bound => .ok .bound
    | _ => .error current target
  | .renewing =>
    match target with
    | .renewingSent => .ok .renewingSent
    | _ => .error current target

/-! Client state and handlers (client/state/client.rs, client/mod.rs). -/

/-- The mutable per-lease client state. -/
structure ClientState where
  serverIdentifier : Option Ipv4Addr
  offeredIpAddress : Option Ipv4Addr
  offeredLeaseTime : Option Nat
  rebindingTime : Option Nat
  renewalTime : Option Nat
  transactionId : Nat
  rebindingTimeLeft : Option Nat
  renewalTimeLeft : Option Nat
deriving DecidableEq, Repr

/-- ClientState Default: every optional field empty, transaction id zero. -/
def ClientState.default : ClientState :=
  ⟨none, none, none, none, none, 0, none, none⟩

/-- Client errors surfaced by the handlers; state errors carry the source
    and target of the rejected transition, and panicked models an unwrap
    of an empty optional. -/
inductive ClientError where
  | stateError (src : DhcpState) (dst : DhcpState)
  | invalid (msg : String)
  | panicked
deriving DecidableEq, Repr

/-- Lift a transition outcome into the handler error monad, as the question
    mark operator on transition_to does in the source. -/
def TransitionResult.toStep : TransitionResult → Except ClientError DhcpState
  | .ok next => .ok next
  | .error a b => .error (.stateError a b)
  | .panicked => .error .panicked

/-- What a handler produced: the updated client state, the DHCP state after
    the handler, and the seconds it passed to sleep if it slept. -/
structure StepResult where
  client : ClientState
  dhcp : DhcpState
  sleep : Option Nat
deriving DecidableEq, Repr

/-- What the receive step delivered to a waiting handler: the timeout
    branch, a false-positive empty read, or a message. -/
inductive Reception where
  | timeout
  | nothing
  | received (m : Message)

/-- Modelled from the spec: get_option is called by the client handlers but
    its definition is not among the sources under review; §9 fixes the
    lookup to first-wins by tag. -/
def Message.getOption (m : Message) (tag : OptionTag) : Option DhcpOption :=
  m.options.find? (fun o => o.header.tag.beq tag)

/-- Modelled from the spec: get_renewal_t1_time is absent from the sources
    under review; §4.3 reads it as the value of option 58 when present. -/
def Message.getRenewalT1Time (m : Message) : Option Nat :=
  match m.getOption .renewalT1Time with
  | some o =>
    match o.data with
    | .renewalT1Time v => some v
    | _ => none
  | none => none

/-- Modelled from the spec: get_rebinding_t2_time is absent from the sources
    under review; §4.3 reads it as the value of option 59 when present. -/
def Message.getRebindingT2Time (m : Message) : Option Nat :=
  match m.getOption .rebindingT2Time with
  | some o =>
    match o.data with
    | .rebindingT2Time v => some v
    | _ => none
  | none => none

/-- Modelled from the spec: valid_xid is absent from the sources under
    review; §4.3 requires the message xid to equal the client xid. -/
def Message.validXid (m : Message) (xid : Nat) : Bool :=
  m.header.xid = xid

/-- Modelled from the spec: valid_message_type is absent from the sources
    under review; §4.3 requires the DhcpMessageType option to be present
    with the expected kind. -/
def Message.validMessageType (m : Message) (expected : DhcpMessageType) : Bool :=
  m.getMessageType = some expected

/-- handle_selecting_sent: the timeout branch transitions to Init through
    transition_to (propagating its error), a false positive leaves the
    state alone, and an offer with matching xid captures the server
    identifier, the offered lease time and yiaddr before transitioning to
    Requesting. Mismatched messages are discarded without a state change. -/
def handleSelectingSent (st : ClientState) (recv : Reception) :
    Except ClientError StepResult := do
  match recv with
  | .timeout =>
    let next ← (transitionTo .selectingSent .init).toStep
    return ⟨st, next, none⟩
  | .nothing => return ⟨st, .selectingSent, none⟩
  | .received m =>
    if ¬ m.validXid st.transactionId then
      return ⟨st, .selectingSent, none⟩
    else if ¬ m.validMessageType .offer then
      return ⟨st, .selectingSent, none⟩
    else
      let st :=
        match m.getOption .serverIdentifier with
        | some o =>
          match o.data with
          | .serverIdentifier ip => { st with serverIdentifier := some ip }
          | _ => st
        | none => st
      let st :=
        match m.getOption .ipAddrLeaseTime with
        | some o =>
          match o.data with
          | .ipAddrLeaseTime time => { st with offeredLeaseTime := some time }
          | _ => st
        | none => st
      let st := { st with offeredIpAddress := some m.yiaddr }
      let next ← (transitionTo .selectingSent .requesting).toStep
      return ⟨st, next, none⟩

/-- Shared DHCPACK tail of the requesting, renewing and rebinding reply
    handlers: set T1 to option 58 or half the offered lease time, T2 to
    option 59 or seven eighths of it, require the offered address for the
    external ip command, and transition to Bound. The halving mirrors the
    source exactly: the lease time is below 2^32, so its f64 image is
    exact, the products by 0.5 and 0.875 are exact binary rationals, and
    the as-u32 cast truncates, giving L / 2 and 7 * L / 8 in natural
    division. -/
def applyAckTimers (src : DhcpState) (st : ClientState) (m : Message) :
    Except ClientError StepResult := do
  let lease ←
    match st.offeredLeaseTime with
    | some lease => pure lease
    | none => .error ClientError.panicked
  let st := { st with renewalTime := some (m.getRenewalT1Time.getD (lease / 2)) }
  let st := { st with
    rebindingTime := some (m.getRebindingT2Time.getD (7 * lease / 8)) }
  match st.offeredIpAddress with
  | some _ => pure ()
  | none => .error ClientError.panicked
  let next ← (transitionTo src .bound).toStep
  return ⟨st, next, none⟩

/-- handle_requesting_sent: timeout goes back to Init, a NAK goes to Init,
    an ACK installs the timers and binds, anything else leaves the state
    alone. -/
def handleRequestingSent (st : ClientState) (recv : Reception) :
    Except ClientError StepResult := do
  match recv with
  | .timeout =>
    let next ← (transitionTo .requestingSent .init).toStep
    return ⟨st, next, none⟩
  | .nothing => return ⟨st, .requestingSent, none⟩
  | .received m =>
    if ¬ m.validXid st.transactionId then
      return ⟨st, .requestingSent, none⟩
    else
      match m.getMessageType with
      | some .nak =>
        let next ← (transitionTo .requestingSent .init).toStep
        return ⟨st, next, none⟩
      | some .ack => applyAckTimers .requestingSent st m
      | some _ => return ⟨st, .requestingSent, none⟩
      | none => return ⟨st, .requestingSent, none⟩

/-- handle_renewing_sent: with no message, a missing T1 timer is a fatal
    invalid-state error; a timer below twice the 60-second retransmission
    floor transitions to Rebinding; otherwise the handler sleeps the whole
    remaining time, halves the timer, and goes back to Renewing. A reply is
    handled like the requesting case. -/
def handleRenewingSent (st : ClientState) (recv : Option Message) :
    Except ClientError StepResult := do
  match recv with
  | none =>
    match st.renewalTimeLeft with
    | some time =>
      if time < MINIMAL_RETRANS_DURATION_SECS * 2 then
        let next ← (transitionTo .renewingSent .rebinding).toStep
        return ⟨st, next, none⟩
      else
        let st := { st with renewalTimeLeft := some (time / 2) }
        let next ← (transitionTo .renewingSent .renewing).toStep
        return ⟨st, next, some time⟩
    | none => .error (.invalid "RENEWING: No renewal (T1) timer")
  | some m =>
    if ¬ m.validXid st.transactionId then
      return ⟨st, .renewingSent, none⟩
    else
      match m.getMessageType with
      | some .nak =>
        let next ← (transitionTo .renewingSent .init).toStep
        return ⟨st, next, none⟩
      | some .ack => applyAckTimers .renewingSent st m
      | some _ => return ⟨st, .renewingSent, none⟩
      | none => return ⟨st, .renewingSent, none⟩

/-! Server builder (server/builder.rs). Percentages are f64 in the source;
    they are embedded as rationals, which carry every value the claims and
    defaults use exactly. -/

/-- Errors of the server builder. -/
inductive ServerBuilderError where
  | invalidTimes
  | invalidPercent
  | invalidPoolCount
deriving DecidableEq, Repr

/-- Modelled from the spec: DEFAULT_RENEW_PERCENT is imported by the builder
    but not among the sources under review; §4.4 fixes the default renew
    percentage to 0.5. -/
def DEFAULT_RENEW_PERCENT : ℚ := 1 / 2

/-- Modelled from the spec: DEFAULT_REBIND_PERCENT is imported by the
    builder but not among the sources under review; §4.4 fixes the default
    rebind percentage to 0.875. -/
def DEFAULT_REBIND_PERCENT : ℚ := 7 / 8

/-- The configuration carried by a built server. -/
structure ServerConfig where
  sendTimes : Bool
  rebindTime : Nat
  renewTime : Nat
deriving DecidableEq, Repr

/-- The builder state. -/
structure ServerBuilder where
  rebindTime : Option Nat
  rebindPercent : ℚ
  renewTime : Option Nat
  renewPercent : ℚ
  calculatesTimes : Bool
  leaseTime : Nat
  pools : List (String × String)
deriving DecidableEq, Repr

/-- ServerBuilder Default: the default percentages, a one-hour lease, no
    explicit times, no pools. -/
def ServerBuilder.default : ServerBuilder :=
  ⟨none, DEFAULT_REBIND_PERCENT, none, DEFAULT_RENEW_PERCENT, false,
    ONE_HOUR_SECS, []⟩

/-- Truncating cast of a lease-time fraction to u32, the as-u32 on the f64
    product in the source: truncation toward zero, negatives saturating to
    zero. -/
def percentOfLease (lease : Nat) (percent : ℚ) : Nat :=
  (⌊(lease : ℚ) * percent⌋).toNat

/-- ServerBuilder build: explicit times must come in pairs; the percent
    check errors when the rebind percentage is at least the renew
    percentage (the source comparison, with its operands in that order);
    missing explicit times default to percentages of the lease time; at
    least one pool is required. -/
def ServerBuilder.build (b : ServerBuilder) : Except ServerBuilderError ServerConfig :=
  let sendTimes := b.calculatesTimes || (b.rebindTime.isSome && b.renewTime.isSome)
  if (b.rebindTime.isSome && b.renewTime.isNone)
      || (b.rebindTime.isNone && b.renewTime.isSome) then
    .error .invalidTimes
  else if b.rebindPercent ≥ b.renewPercent then
    .error .invalidPercent
  else
    let rebindTime := b.rebindTime.getD (percentOfLease b.leaseTime b.rebindPercent)
    let renewTime := b.renewTime.getD (percentOfLease b.leaseTime b.renewPercent)
    if b.pools.isEmpty then
      .error .invalidPoolCount
    else
      .ok ⟨sendTimes, rebindTime, renewTime⟩

/-! Lease storage (storage/mod.rs). The HashMap is embedded as an
    association list with HashMap insert semantics. -/

/-- A stored lease row. -/
structure Lease where
  ipAddr : Ipv4Addr
  macAddr : String
  hostname : String
  renewalTime : Nat
  rebindingTime : Nat
deriving DecidableEq, Repr

/-- The composite storage key. -/
structure StorageIdentifier where
  macAddr : String
  hostname : String
deriving DecidableEq, Repr

/-- The file-backed lease store: the lease map, the flush interval in
    seconds, the dirty flag, and the backing file path. -/
structure FileStorage where
  leases : List (StorageIdentifier × Lease)
  flushInterval : Nat
  pendingChanges : Bool
  filePath : String
deriving DecidableEq, Repr

/-- Map lookup, the HashMap get. -/
def leasesGet (l : List (StorageIdentifier × Lease)) (ident : StorageIdentifier) :
    Option Lease :=
  (l.find? (fun p => p.1 = ident)).map (fun p => p.2)

/-- Map insert, the HashMap insert: replace the binding when the key is
    present, append otherwise. -/
def leasesInsert (l : List (StorageIdentifier × Lease)) (ident : StorageIdentifier)
    (lease : Lease) : List (StorageIdentifier × Lease) :=
  match l with
  | [] => [(ident, lease)]
  | p :: rest =>
    if p.1 = ident then (ident, lease) :: rest
    else p :: leasesInsert rest ident lease

/-- FileStorage save_lease: when an equal lease is already stored under the
    key the call returns at once, leaving the store (and its dirty flag)
    untouched; otherwise it inserts the lease and sets the dirty flag. -/
def FileStorage.saveLease (s : FileStorage) (ident : StorageIdentifier)
    (lease : Lease) : FileStorage :=
  match leasesGet s.leases ident with
  | some existingLease =>
    if existingLease = lease then s
    else { s with leases := leasesInsert s.leases ident lease, pendingChanges := true }
  | none =>
    { s with leases := leasesInsert s.leases ident lease, pendingChanges := true }

/-! Concrete inputs used by the claim theorems below. -/

/-- A DhcpMessageType Discover option TLV. -/
def optMsgTypeDiscover : DhcpOption :=
  ⟨⟨.dhcpMessageType, 1⟩, .dhcpMessageType .discover⟩

/-- A DhcpMessageType Ack option TLV. -/
def optMsgTypeAck : DhcpOption := ⟨⟨.dhcpMessageType, 1⟩, .dhcpMessageType .ack⟩

/-- An IpAddrLeaseTime option TLV carrying 3600 seconds. -/
def optLease3600 : DhcpOption := ⟨⟨.ipAddrLeaseTime, 4⟩, .ipAddrLeaseTime 3600⟩

/-- An End option TLV. -/
def optEnd : DhcpOption := ⟨⟨.end_, 1⟩, .end_⟩

/-- A minimal legal DISCOVER-shaped message: the default message carrying a
    message-type option and the End terminator. -/
def msgDiscover : Message :=
  { Message.default with options := [optMsgTypeDiscover, optEnd] }

/-- The bytes the encoder produces for the default message: opcode and hlen,
    233 zero bytes (the htype byte is dropped by the stubbed writer), and
    the magic cookie; 239 bytes in all. -/
def defaultMsgBytes : Bytes := 1 :: 6 :: List.replicate 233 0 ++ DHCP_MAGIC_COOKIE_ARR

/-- The client state right after a successful OFFER capture: server
    192.168.1.1 offered 192.168.1.100 for 3600 seconds under xid 42. -/
def clientStateAfterOffer : ClientState :=
  { ClientState.default with
    serverIdentifier := some ⟨192, 168, 1, 1⟩
    offeredIpAddress := some ⟨192, 168, 1, 100⟩
    offeredLeaseTime := some 3600
    transactionId := 42 }

/-- An ACK for xid 42 carrying only the lease time, no T1 and no T2. -/
def ackMsg3600 : Message :=
  { Message.newWithXid 42 with options := [optMsgTypeAck, optLease3600, optEnd] }

/-- A renewing client with 60 seconds of T1 budget left. -/
def stRenew60 : ClientState := { ClientState.default with renewalTimeLeft := some 60 }

/-- A renewing client with 200 seconds of T1 budget left. -/
def stRenew200 : ClientState := { ClientState.default with renewalTimeLeft := some 200 }

/-- The default server builder with one pool configured. -/
def builderWithPool : ServerBuilder :=
  { ServerBuilder.default with pools := [("main", "10.0.0.10-10.0.0.100")] }

/-- A stored lease row. -/
def lease0 : Lease := ⟨⟨192, 168, 1, 100⟩, "de:ad", "h", 1800, 3150⟩

/-- The storage key of lease0. -/
def ident0 : StorageIdentifier := ⟨"de:ad", "h"⟩

/-- A store already holding lease0 with a clean dirty flag, the state after
    a load_leases from file. -/
def store0 : FileStorage := ⟨[(ident0, lease0)], 60, false, "leases"⟩

/-- An empty lease store with a clean dirty flag. -/
def emptyStore : FileStorage := ⟨[], 60, false, "leases"⟩

/-- The hardware address string DE:AD:BE:EF:12:34 as characters. -/
def macChars : List Char :=
  ['D', 'E', ':', 'A', 'D', ':', 'B', 'E', ':', 'E', 'F', ':', '1', '2', ':', '3', '4']

/-- The parsed hardware address of macChars: six bytes and ten zero bytes of
    padding. -/
def macAddr6 : HardwareAddr :=
  ⟨List.replicate 10 0, [222, 173, 190, 239, 18, 52]⟩

/-! Claim theorems. -/

/-- C1: the claim says SelectingSent to Init (timeout) is a legal transition
    and InitReboot to Init, InitReboot or Bound are legal. The code rejects
    SelectingSent to Init with a DhcpStateError even though its own timeout
    handler performs exactly that transition and propagates the error as a
    fatal failure, and the whole InitReboot arm is an unimplemented panic:
    the transition table contradicts its caller, a code bug. -/
theorem C1_selecting_sent_timeout_code_bug :
    transitionTo .selectingSent .init = .error .selectingSent .init ∧
    handleSelectingSent ClientState.default .timeout =
      .error (.stateError .selectingSent .init) ∧
    (∀ t, transitionTo .initReboot t = .panicked) := by
  refine ⟨rfl, rfl, fun t => ?_⟩
  cases t <;> rfl

/-- C2: the claim says decode after encode is the identity on legal
    messages, the encoder emitting each option's tag byte and an End
    option. In the code the option-tag writer and the hardware-type writer
    are stubs that report one written byte while emitting none, and the
    message writer appends no End; already for a minimal DISCOVER-shaped
    message the re-decode fails (the byte after the opcode is the hlen 6,
    rejected as a hardware type), so the round trip is broken: a code bug. -/
theorem C2_roundtrip_code_bug :
    (∀ t : OptionTag, OptionTag.write t = []) ∧
    Message.roundTrip msgDiscover = .error (.invalidHardwareType 6) ∧
    Message.roundTrip msgDiscover ≠ .ok msgDiscover := by
  refine ⟨fun t => rfl, rfl, fun h => ?_⟩
  rw [show Message.roundTrip msgDiscover = .error (.invalidHardwareType 6) from rfl] at h
  exact Except.noConfusion h

/-- C3 counterexample: 62 is not an assigned RFC 1533 tag, so the claim
    says it decodes as UnassignedOrRemoved 62; the code answers
    InvalidTag 62. -/
theorem C3_counterexample :
    OptionTag.tryFrom 62 = .error (.invalidTag 62) ∧
    OptionTag.tryFrom 62 ≠ .ok (.unassignedOrRemoved 62) := by
  refine ⟨rfl, fun h => ?_⟩
  rw [show OptionTag.tryFrom 62 = .error (.invalidTag 62) from rfl] at h
  exact Except.noConfusion h

/-- Bool classifier: the result is an InvalidTag error carrying exactly the
    given byte. It lets the per-byte tag behaviour be decided without an
    equality instance on the large tag enumeration. -/
def isInvalidTagOf (b : Nat) : Except CodecError OptionTag → Bool
  | .error (.invalidTag v) => v == b
  | _ => false

/-- A true classifier verdict is the claimed InvalidTag equation. -/
theorem isInvalidTagOfEq (b : Nat) (r : Except CodecError OptionTag)
    (h : isInvalidTagOf b r = true) : r = .error (.invalidTag b) := by
  cases r with
  | ok t => simp [isInvalidTagOf] at h
  | error e =>
    cases e <;> simp [isInvalidTagOf] at h
    subst h
    rfl

/-- C3 amended: the UnassignedOrRemoved set of the code is exactly the
    single byte 108; every other byte outside the explicitly listed arms
    (0..=61, 114, 255) fails with InvalidTag carrying the byte; and an
    option tagged UnassignedOrRemoved does not survive a round trip, since
    reading its data is an unimplemented panic (and the encoder has no
    payload for it). -/
theorem C3_unassigned_tags_amended (b : Nat) (hb : b < 256)
    (hout : ¬ (b ≤ 61 ∨ b = 108 ∨ b = 114 ∨ b = 255)) :
    (OptionTag.tryFrom 108 = .ok (.unassignedOrRemoved 108)) ∧
    (OptionTag.tryFrom b = .error (.invalidTag b)) ∧
    (∀ v buf, OptionData.read ⟨.unassignedOrRemoved v, 1⟩ buf = .error .panicked) := by
  refine ⟨rfl, ?_, fun v buf => rfl⟩
  have hall : ∀ x, x < 256 → ¬ (x ≤ 61 ∨ x = 108 ∨ x = 114 ∨ x = 255) →
      isInvalidTagOf x (OptionTag.tryFrom x) = true := by decide
  exact isInvalidTagOfEq b _ (hall b hb hout)

/-- C3 witness: the amended claim evaluated at the unlisted byte 140. -/
theorem C3_witness :
    (140 < 256 ∧ ¬ (140 ≤ 61 ∨ 140 = 108 ∨ 140 = 114 ∨ 140 = 255)) ∧
    OptionTag.tryFrom 140 = .error (.invalidTag 140) :=
  ⟨⟨by decide, by decide⟩,
    (C3_unassigned_tags_amended 140 (by decide) (by decide)).2.1⟩

/-- C4: the claim says build fails when the renew percentage is at least
    the rebind percentage and that the default configuration (0.5 and
    0.875 with a pool) passes the percent check. The code compares the
    percentages the wrong way round, contradicting its own comment and
    error message, so the default configuration fails with InvalidPercent
    although its renew percentage is strictly below its rebind percentage:
    a code bug. -/
theorem C4_percent_check_code_bug :
    ServerBuilder.default.renewPercent < ServerBuilder.default.rebindPercent ∧
    ServerBuilder.build builderWithPool = .error .invalidPercent := by
  constructor
  · show DEFAULT_RENEW_PERCENT < DEFAULT_REBIND_PERCENT
    unfold DEFAULT_RENEW_PERCENT DEFAULT_REBIND_PERCENT
    norm_num
  · have hp : DEFAULT_REBIND_PERCENT ≥ DEFAULT_RENEW_PERCENT := by
      unfold DEFAULT_REBIND_PERCENT DEFAULT_RENEW_PERCENT
      norm_num
    simp [ServerBuilder.build, builderWithPool, ServerBuilder.default, hp]

/-- C5: on a matching ACK in RequestingSent, T1 becomes the value of
    option 58 or half the offered lease time, T2 the value of option 59 or
    seven eighths of it, and the client transitions to Bound. -/
theorem C5_requesting_sent_ack_timers (st : ClientState) (m : Message) (l : Nat)
    (hL : st.offeredLeaseTime = some l)
    (hip : st.offeredIpAddress.isSome)
    (hxid : m.validXid st.transactionId)
    (hack : m.getMessageType = some .ack) :
    handleRequestingSent st (.received m) = .ok
      ⟨{ st with renewalTime := some (m.getRenewalT1Time.getD (l / 2)),
                 rebindingTime := some (m.getRebindingT2Time.getD (7 * l / 8)) },
        .bound, none⟩ := by
  obtain ⟨ip, hips⟩ := Option.isSome_iff_exists.mp hip
  simp [handleRequestingSent, hxid, hack, applyAckTimers, hL, hips, transitionTo,
    TransitionResult.toStep, Bind.bind, Except.bind, Pure.pure, Except.pure]

/-- C5 witness: an ACK carrying only lease time 3600 puts the client into
    Bound with renewal time 1800 and rebinding time 3150. -/
theorem C5_witness :
    (clientStateAfterOffer.offeredLeaseTime = some 3600 ∧
      clientStateAfterOffer.offeredIpAddress.isSome ∧
      (ackMsg3600.validXid clientStateAfterOffer.transactionId) = true ∧
      ackMsg3600.getMessageType = some .ack) ∧
    handleRequestingSent clientStateAfterOffer (.received ackMsg3600) = .ok
      ⟨{ clientStateAfterOffer with
          renewalTime := some 1800, rebindingTime := some 3150 },
        .bound, none⟩ :=
  ⟨⟨rfl, by decide, by decide, by decide⟩,
    (C5_requesting_sent_ack_timers clientStateAfterOffer ackMsg3600 3600 rfl
      (by decide) (by decide) (by decide)).trans (by decide)⟩

/-- C6 counterexample: with 200 seconds of T1 budget and no reply, the
    handler records a 200-second sleep, not the halved 100 seconds the
    claim asserts it sleeps. -/
theorem C6_counterexample :
    (handleRenewingSent stRenew200 none).map StepResult.sleep = .ok (some 200) ∧
    (some 200 : Option Nat) ≠ some (200 / 2) := by
  exact ⟨by decide, by decide⟩

/-- C6 amended: in RenewingSent with no reply, a T1 budget below twice the
    60-second floor transitions to Rebinding; otherwise the handler sleeps
    the whole current budget, halves the stored budget, and goes back to
    Renewing for retransmission. -/
theorem C6_renewing_sent_timeout_amended (st : ClientState) (t : Nat)
    (h : st.renewalTimeLeft = some t) :
    (t < MINIMAL_RETRANS_DURATION_SECS * 2 →
      handleRenewingSent st none = .ok ⟨st, .rebinding, none⟩) ∧
    (MINIMAL_RETRANS_DURATION_SECS * 2 ≤ t →
      handleRenewingSent st none =
        .ok ⟨{ st with renewalTimeLeft := some (t / 2) }, .renewing, some t⟩) := by
  constructor
  · intro hlt
    simp [handleRenewingSent, h, hlt, transitionTo, TransitionResult.toStep,
      Bind.bind, Except.bind, Pure.pure, Except.pure]
  · intro hge
    simp [handleRenewingSent, h, Nat.not_lt.mpr hge, transitionTo,
      TransitionResult.toStep, Bind.bind, Except.bind, Pure.pure, Except.pure]

/-- C6 witness: at 60 seconds left the next state is Rebinding; at 200
    seconds left the handler sleeps 200 seconds, halves the budget to 100,
    and goes back to Renewing. -/
theorem C6_witness :
    (stRenew60.renewalTimeLeft = some 60 ∧
      60 < MINIMAL_RETRANS_DURATION_SECS * 2 ∧
      handleRenewingSent stRenew60 none = .ok ⟨stRenew60, .rebinding, none⟩) ∧
    (stRenew200.renewalTimeLeft = some 200 ∧
      MINIMAL_RETRANS_DURATION_SECS * 2 ≤ 200 ∧
      handleRenewingSent stRenew200 none =
        .ok ⟨{ stRenew200 with renewalTimeLeft := some 100 }, .renewing, some 200⟩) :=
  ⟨⟨rfl, by decide,
      (C6_renewing_sent_timeout_amended stRenew60 60 rfl).1 (by decide)⟩,
    ⟨rfl, by decide,
      ((C6_renewing_sent_timeout_amended stRenew200 200 rfl).2 (by decide)).trans
        (by decide)⟩⟩

/-- C7 counterexample: the default message encodes to 239 bytes, below the
    claimed 300-byte padded minimum. -/
theorem C7_counterexample :
    (Message.write Message.default).map List.length = .ok 239 ∧
    ¬ MIN_MSG_SIZE ≤ 239 := by
  exact ⟨by decide, by decide⟩

/-- Byte length of a written header: eleven, the stubbed htype writer
    contributing nothing. -/
theorem headerWriteLength (h : Header) : (Header.write h).length = 11 := by
  simp [Header.write, OpCode.write, HardwareType.write, writeU8, writeU16, writeU32]

/-- Byte length of a written IPv4 address. -/
theorem ipv4WriteLength (ip : Ipv4Addr) : (Ipv4Addr.write ip).length = 4 := rfl

/-- Byte length of a successfully written hardware address. -/
theorem chaddrWriteLength (h : HardwareAddr) (bs : Bytes) (hw : h.write = .ok bs) :
    bs.length = 16 := by
  unfold HardwareAddr.write at hw
  split at hw
  · exact absurd hw (by simp)
  · next hne =>
    simp only [Except.ok.injEq] at hw
    subst hw
    simp only [List.length_append]
    omega

/-- C7 amended: the message writer performs no minimum-size padding: a
    successful encoding is exactly 47 fixed bytes (11 header, 16 addresses,
    16 chaddr, 4 cookie) plus sname, file and the encoded options, and so
    can be shorter than 300 bytes. -/
theorem C7_no_padding_amended (m : Message) (bs ob : Bytes)
    (h : m.write = .ok bs) (ho : writeOptionList m.options = .ok ob) :
    bs.length = 47 + m.sname.length + m.file.length + ob.length := by
  unfold Message.write at h
  cases hc : m.chaddr.write with
  | error e => rw [hc] at h; simp [Bind.bind, Except.bind] at h
  | ok cb =>
    rw [hc, ho] at h
    simp only [Bind.bind, Except.bind, Pure.pure, Except.pure, Except.ok.injEq] at h
    rw [← h]
    simp only [List.length_append, headerWriteLength, ipv4WriteLength,
      chaddrWriteLength m.chaddr cb hc, DHCP_MAGIC_COOKIE_ARR]
    simp
    omega

/-- C7 witness: the amended length law evaluated on the default message,
    whose encoding is the 239 bytes of defaultMsgBytes. -/
theorem C7_witness :
    (Message.write Message.default = .ok defaultMsgBytes ∧
      writeOptionList Message.default.options = .ok []) ∧
    defaultMsgBytes.length =
      47 + Message.default.sname.length + Message.default.file.length +
        List.length ([] : Bytes) :=
  ⟨⟨by decide, by decide⟩,
    C7_no_padding_amended Message.default defaultMsgBytes [] (by decide) (by decide)⟩

/-- C8: decoding a MaxDhcpMessageSize payload whose 16-bit big-endian value
    is below 576 fails with InvalidDhcpMessageSize, and any value of at
    least 576 decodes to that value. -/
theorem C8_max_message_size_read (v : Nat) (rest : Bytes) (hv : v < 65536) :
    (v < 576 →
      OptionData.read ⟨.maxDhcpMessageSize, 2⟩ (v / 256 :: v % 256 :: rest) =
        .error .invalidDhcpMessageSize) ∧
    (576 ≤ v →
      OptionData.read ⟨.maxDhcpMessageSize, 2⟩ (v / 256 :: v % 256 :: rest) =
        .ok (.maxDhcpMessageSize v, rest)) := by
  have hw : v / 256 * 256 + v % 256 = v := Nat.div_add_mod' v 256
  refine ⟨fun h => ?_, fun h => ?_⟩
  · simp [OptionData.read, readU16, readU8, Bind.bind, Except.bind, Pure.pure,
      Except.pure, hw, MINIMUM_LEGAL_MAX_MESSAGE_SIZE, h]
  · simp [OptionData.read, readU16, readU8, Bind.bind, Except.bind, Pure.pure,
      Except.pure, hw, MINIMUM_LEGAL_MAX_MESSAGE_SIZE, Nat.not_lt.mpr h]

/-- C8 witness: the value 500 is rejected and the value 1500 decodes. -/
theorem C8_witness :
    ((500 : Nat) < 65536 ∧ (500 : Nat) < 576 ∧ (1500 : Nat) < 65536 ∧
      (576 : Nat) ≤ 1500) ∧
    OptionData.read ⟨.maxDhcpMessageSize, 2⟩ (500 / 256 :: 500 % 256 :: []) =
      .error .invalidDhcpMessageSize ∧
    OptionData.read ⟨.maxDhcpMessageSize, 2⟩ (1500 / 256 :: 1500 % 256 :: []) =
      .ok (.maxDhcpMessageSize 1500, []) :=
  ⟨⟨by decide, by decide, by decide, by decide⟩,
    (C8_max_message_size_read 500 [] (by decide)).1 (by decide),
    (C8_max_message_size_read 1500 [] (by decide)).2 (by decide)⟩

/-- Length of a successful segment parse: one byte per segment. -/
theorem parseHexSegmentsLength (segs : List (List Char)) (bs : Bytes)
    (h : parseHexSegments segs = .ok bs) : bs.length = segs.length := by
  induction segs generalizing bs with
  | nil =>
    simp [parseHexSegments] at h
    subst h
    rfl
  | cons s rest ih =>
    unfold parseHexSegments at h
    cases hp : parseHexU8 s with
    | none => rw [hp] at h; simp at h
    | some v =>
      rw [hp] at h
      cases hr : parseHexSegments rest with
      | error e => rw [hr] at h; simp [Bind.bind, Except.bind] at h
      | ok vs =>
        rw [hr] at h
        simp [Bind.bind, Except.bind, Pure.pure, Except.pure] at h
        subst h
        simp [ih vs hr]

/-- A segment list containing an unparsable segment makes the segment
    parser fail with InvalidByte. -/
theorem parseHexSegmentsErr (segs : List (List Char))
    (hex : ∃ s ∈ segs, parseHexU8 s = none) :
    parseHexSegments segs = .error .invalidByte := by
  induction segs with
  | nil => simp at hex
  | cons s rest ih =>
    obtain ⟨x, hx, hnone⟩ := hex
    cases hp : parseHexU8 s with
    | none => simp [parseHexSegments, hp]
    | some v =>
      have hrest : ∃ y ∈ rest, parseHexU8 y = none := by
        rcases List.mem_cons.mp hx with h1 | h2
        · subst h1; rw [hnone] at hp; cases hp
        · exact ⟨x, h2, hnone⟩
      simp [parseHexSegments, hp, ih hrest, Bind.bind, Except.bind]

/-- C9: every hardware-address constructor maintains address plus padding
    equal to 16 bytes (string parse, wire read, and the default value), and
    the string parse fails with InvalidSeparator when no colon is present,
    InvalidByte when a segment is not a hex byte, and InvalidLength when
    there are more than 16 segments. -/
theorem C9_hardware_addr_invariant :
    (∀ s ha, HardwareAddr.tryFrom s = .ok ha →
      ha.addr.length + ha.padding.length = 16) ∧
    (∀ hlen buf ha rest, HardwareAddr.read hlen buf = .ok (ha, rest) →
      ha.addr.length + ha.padding.length = 16) ∧
    (HardwareAddr.default.addr.length + HardwareAddr.default.padding.length = 16) ∧
    (∀ s, s.contains ':' = false →
      HardwareAddr.tryFrom s = .error .invalidSeparator) ∧
    (∀ s, s.contains ':' = true →
      (splitOnColon (trimChars s)).length ≤ 16 →
      (∃ seg ∈ splitOnColon (trimChars s), parseHexU8 seg = none) →
      HardwareAddr.tryFrom s = .error .invalidByte) ∧
    (∀ s, s.contains ':' = true →
      (splitOnColon (trimChars s)).length > 16 →
      HardwareAddr.tryFrom s =
        .error (.invalidLength (splitOnColon (trimChars s)).length)) := by
  refine ⟨?_, ?_, by decide, ?_, ?_, ?_⟩
  · intro s ha h
    unfold HardwareAddr.tryFrom at h
    split at h
    · simp at h
    · split at h
      · simp at h
      · next h16 =>
        cases hp : parseHexSegments (splitOnColon (trimChars s)) with
        | error e => rw [hp] at h; simp [Bind.bind, Except.bind] at h
        | ok addr =>
          rw [hp] at h
          simp [Bind.bind, Except.bind, Pure.pure, Except.pure] at h
          subst h
          have hlen := parseHexSegmentsLength _ _ hp
          simp only [List.length_replicate]
          omega
  · intro hlen buf ha rest h
    unfold HardwareAddr.read at h
    split at h
    · simp at h
    · next hle =>
      unfold readVec at h
      split at h
      · next hbuf =>
        simp [Bind.bind, Except.bind, Pure.pure, Except.pure] at h
        obtain ⟨hha, _⟩ := h
        subst hha
        simp only [List.length_drop, List.length_take]
        omega
      · simp [Bind.bind, Except.bind] at h
  · intro s hs
    have hmem : ¬ (':' ∈ s) := by simpa using hs
    simp [HardwareAddr.tryFrom, hmem]
  · intro s hs h16 hex
    have hmem : ':' ∈ s := by simpa using hs
    simp [HardwareAddr.tryFrom, hmem, Nat.not_lt.mpr h16,
      parseHexSegmentsErr _ hex, Bind.bind, Except.bind]
  · intro s hs h16
    have hmem : ':' ∈ s := by simpa using hs
    simp [HardwareAddr.tryFrom, hmem, h16]

/-- C9 witness: DE:AD:BE:EF:12:34 parses to six address bytes plus ten
    padding bytes, an input without colon is InvalidSeparator, and a
    non-hex segment is InvalidByte. -/
theorem C9_witness :
    (HardwareAddr.tryFrom macChars = .ok macAddr6 ∧
      macAddr6.addr.length + macAddr6.padding.length = 16) ∧
    HardwareAddr.tryFrom ['D', 'E', 'A', 'D'] = .error .invalidSeparator ∧
    HardwareAddr.tryFrom ['Z', 'Z', ':', 'A', 'D'] = .error .invalidByte :=
  ⟨⟨by decide, C9_hardware_addr_invariant.1 macChars macAddr6 (by decide)⟩,
    C9_hardware_addr_invariant.2.2.2.1 ['D', 'E', 'A', 'D'] (by decide),
    C9_hardware_addr_invariant.2.2.2.2.1 ['Z', 'Z', ':', 'A', 'D'] (by decide)
      (by decide) ⟨['Z', 'Z'], by decide, by decide⟩⟩

/-- C10 counterexample: saving a lease equal to the one already stored under
    the key returns early and leaves the dirty flag false, against the
    claim that every store sets it. -/
theorem C10_counterexample :
    (store0.saveLease ident0 lease0).pendingChanges = false := by
  decide

/-- C10 amended: save_lease sets the dirty flag unless an equal lease is
    already stored under the key, in which case the whole store, dirty flag
    included, is left unchanged. -/
theorem C10_save_lease_amended (s : FileStorage) (ident : StorageIdentifier)
    (lease : Lease) :
    (leasesGet s.leases ident = some lease → s.saveLease ident lease = s) ∧
    (leasesGet s.leases ident ≠ some lease →
      (s.saveLease ident lease).pendingChanges = true) := by
  constructor
  · intro h
    simp [FileStorage.saveLease, h]
  · intro h
    unfold FileStorage.saveLease
    cases hg : leasesGet s.leases ident with
    | none => simp
    | some l =>
      rw [hg] at h
      have hne : l ≠ lease := fun he => h (by rw [he])
      simp [hne]

/-- C10 witness: re-saving the stored lease leaves store0 unchanged, and
    saving into the empty store sets the dirty flag. -/
theorem C10_witness :
    (leasesGet store0.leases ident0 = some lease0 ∧
      store0.saveLease ident0 lease0 = store0) ∧
    (leasesGet emptyStore.leases ident0 ≠ some lease0 ∧
      (emptyStore.saveLease ident0 lease0).pendingChanges = true) :=
  ⟨⟨by decide, (C10_save_lease_amended store0 ident0 lease0).1 (by decide)⟩,
    ⟨by decide, (C10_save_lease_amended emptyStore ident0 lease0).2 (by decide)⟩⟩

end Vulcan
